import Mathlib

/-!
# Verification of the `mlhubspawner` subnet allocator and launch orchestrator

Shallow embedding of `src/docker-res/mlhubspawner/mlhubspawner/mlhubspawner.py`.

Modelling conventions:
* IPv4 addresses are natural numbers below `2^32`; `mkIp a b c d` builds one
  from its dotted-quad octets. A CIDR (`ipaddress.ip_network` value) is a pair
  of its network address and its prefix length; Python's ordering on
  `IPv4Network` compares network addresses first, then netmasks, which for a
  fixed version is lexicographic in (address, prefix length) — `cidrLt`.
* A docker network object is modelled by its name together with
  `Option Cidr`: `some c` when `has_complete_network_information` holds and
  the first IPAM config's subnet parses to `c`, `none` when the IPAM data is
  incomplete.
* Strings coming from the spawn form (`cpu_limit`) hold decimal integers; the
  embedding identifies such a string with its numeric value, so the raw form
  string is recovered as `toString`. Empty/absent (Python-falsy) optional
  values are `none`.
* The docker daemon's `networks.create` call can be refused (e.g. a duplicate
  subnet or name created by a concurrent allocation); `create_network` takes
  this runtime outcome as the boolean `createOk`. A result that is the same
  for both values of `createOk` was produced without consulting the creation
  call at all.
-/

/-- Build an IPv4 address from four octets (`ipaddress` packed representation). -/
def mkIp (a b c d : Nat) : Nat := ((a * 256 + b) * 256 + c) * 256 + d

/-- First byte of `IPv4Address.packed` (addresses are below `2^32`). -/
def octet0 (a : Nat) : Nat := a / 16777216

/-- Second byte of `IPv4Address.packed`. -/
def octet1 (a : Nat) : Nat := a / 65536 % 256

/-- A parsed `ipaddress.ip_network` value: network address plus prefix length. -/
structure Cidr where
  addr : Nat
  prefixLen : Nat
  deriving DecidableEq, Repr

/-- Python's `<` on `IPv4Network`: network address first, then netmask.
For equal versions the netmask order agrees with the prefix-length order. -/
def cidrLt (c d : Cidr) : Bool :=
  c.addr < d.addr || (c.addr == d.addr && c.prefixLen < d.prefixLen)

/-- `INITIAL_CIDR_FIRST_OCTET` in the source. -/
def INITIAL_CIDR_FIRST_OCTET : Nat := 172

/-- `INITIAL_CIDR_SECOND_OCTET` in the source. -/
def INITIAL_CIDR_SECOND_OCTET : Nat := 33

/-- `INITIAL_CIDR = "172.33.0.0/24"`, parsed. -/
def initialCidr : Cidr := ⟨mkIp 172 33 0 0, 24⟩

/-- The in-range filter of `create_network`'s scan loop:
`packed[0] == INITIAL_CIDR_FIRST_OCTET and packed[1] >= INITIAL_CIDR_SECOND_OCTET`. -/
def inRange (c : Cidr) : Bool :=
  octet0 c.addr == INITIAL_CIDR_FIRST_OCTET && INITIAL_CIDR_SECOND_OCTET ≤ octet1 c.addr

/-- A docker network as `create_network` sees it: its name, and its first IPAM
subnet when `has_complete_network_information` holds (`none` otherwise). -/
structure NetworkRecord where
  name : String
  subnet : Option Cidr
  deriving DecidableEq, Repr

/-- Outcome of one `create_network` call. `reused` is the early return of an
existing network whose name matched; `created` is the record built from the
`networks.create` call, carrying the subnet and the gateway address. -/
inductive AllocResult where
  | reused (n : NetworkRecord)
  | created (subnet : Cidr) (gateway : Nat)
  deriving DecidableEq, Repr

/-- Exceptions `create_network` can raise: `invalidNext` is the `ValueError`
from the strict `ip_network` parse of the candidate (host bits set);
`exhausted` is `Exception("No more possible subnet addresses exist")`;
`duplicateNetwork` is the daemon refusing the `networks.create` call. -/
inductive AllocError where
  | invalidNext
  | exhausted
  | duplicateNetwork
  deriving DecidableEq, Repr

/-- Python's `str.lower()` on the ASCII names handled here, written so the
kernel can evaluate it. -/
def strLower (s : String) : String := ⟨s.data.map Char.toLower⟩

/-- `network.name.lower() == name.lower()`. -/
def nameMatches (name : String) (n : NetworkRecord) : Bool :=
  strLower n.name == strLower name

/-- The scan loop of `create_network`: walk the listed networks; on the first
name match (case-insensitive) return it; otherwise fold the running
`highest_cidr`, replacing it by any complete, in-range CIDR strictly above it. -/
def scanNetworks (name : String) : List NetworkRecord → Cidr → Option NetworkRecord × Cidr
  | [], highest => (none, highest)
  | n :: rest, highest =>
    if nameMatches name n then (some n, highest)
    else
      match n.subnet with
      | some c =>
        if inRange c && cidrLt highest c then scanNetworks name rest c
        else scanNetworks name rest highest
      | none => scanNetworks name rest highest

/-- The tail of `create_network` once no existing network's name matched:
build the candidate `highest + 256` as a strict `/24` (the strict
`ip_network` parse fails on host bits), fail when its first octet leaves the
reserved range, otherwise ask the daemon to create it with gateway
`network_address + 1`. -/
def nextFromHighest (highest : Cidr) (createOk : Bool) : Except AllocError AllocResult :=
  let a := highest.addr + 256
  if a % 256 ≠ 0 then .error .invalidNext
  else if INITIAL_CIDR_FIRST_OCTET < octet0 a then .error .exhausted
  else if createOk then .ok (.created ⟨a, 24⟩ (a + 1))
  else .error .duplicateNetwork

/-- `MLHubDockerSpawner.create_network`, given the daemon's network list and
the outcome `createOk` of the final `networks.create` call (true = accepted). -/
def create_network (name : String) (networks : List NetworkRecord) (createOk : Bool) :
    Except AllocError AllocResult :=
  match scanNetworks name networks initialCidr with
  | (some n, _) => .ok (.reused n)
  | (none, highest) => nextFromHighest highest createOk

deriving instance DecidableEq for Except

/-- The subnet of a newly created network, when the call created one. -/
def allocatedSubnet : Except AllocError AllocResult → Option Cidr
  | .ok (.created c _) => some c
  | _ => none

/-- The gateway of a newly created network, when the call created one. -/
def allocatedGateway : Except AllocError AllocResult → Option Nat
  | .ok (.created _ g) => some g
  | _ => none

/-- The pure `highest_cidr` fold of the scan loop, with the name test gone:
what `scanNetworks` computes when no name matches. -/
def foldHighest (highest : Cidr) : List NetworkRecord → Cidr
  | [] => highest
  | n :: rest =>
    match n.subnet with
    | some c =>
      if inRange c && cidrLt highest c then foldHighest c rest
      else foldHighest highest rest
    | none => foldHighest highest rest

/-- The largest network address among the complete, in-range subnets of a
network list (`0` when there is none): the address of the numerically
highest existing in-range subnet. -/
def maxInRangeSubnetAddr : List NetworkRecord → Nat
  | [] => 0
  | n :: rest =>
    match n.subnet with
    | some c =>
      if inRange c then max c.addr (maxInRangeSubnetAddr rest)
      else maxInRangeSubnetAddr rest
    | none => maxInRangeSubnetAddr rest

/-!
## The launch orchestrator (`options_from_form`, `get_env`, `start`)

`self.user_options` is the dictionary produced from the spawn form. Numeric
form fields hold decimal digit strings; the embedding identifies such a
string with its value (`cpu_limit : Option Nat`, raw string `toString v`).
An absent key and Python-falsy empty string are distinguished: `none` is an
absent key, and `optTruthy` is the `if value:` truthiness test on the rest.
-/

/-- The `user_options` dictionary. `options_from_form` fills the keys
`image`, `cpu_limit`, `mem_limit`, `mount_volume`, `env`, `gpus`; the key
`is_mount_volume` is the one `start` reads. -/
structure UserOptions where
  image : Option String := none
  cpu_limit : Option Nat := none
  mem_limit : Option String := none
  mount_volume : Option String := none
  is_mount_volume : Option String := none
  env : List (String × String) := []
  gpus : Option String := none
  deriving DecidableEq, Repr

/-- Python truthiness of an optional string: absent and `""` are falsy. -/
def optTruthy : Option String → Bool
  | some s => !s.data.isEmpty
  | none => false

/-- `formdata.get(key, [default])[0]`: formdata maps a field name to a
non-empty list of strings; `none` is an absent field. -/
def formGet (fd : List (String × List String)) (k : String) : Option String :=
  (fd.lookup k).bind List.head?

/-- Split a character list at a separator (`str.split` with one separator). -/
def splitSep (sep : Char) : List Char → List Char → List (List Char)
  | [], acc => [acc.reverse]
  | c :: cs, acc =>
    if c = sep then acc.reverse :: splitSep sep cs [] else splitSep sep cs (c :: acc)

/-- `str.splitlines()` for newline-separated data (trailing empties are
irrelevant because the caller drops empty lines). -/
def splitLines (s : String) : List String :=
  (splitSep '\n' s.data []).map fun l => ⟨l⟩

/-- `line.split('=', 1)`: `none` when the line has no `=`, which makes the
unpacking in `options_from_form` raise `ValueError`. -/
def splitEq1 : List Char → Option (List Char × List Char)
  | [] => none
  | c :: cs =>
    if c = '=' then some ([], cs)
    else match splitEq1 cs with
      | some (k, v) => some (c :: k, v)
      | none => none

/-- `str.strip()`. -/
def stripStr (s : String) : String :=
  ⟨((s.data.dropWhile Char.isWhitespace).reverse.dropWhile Char.isWhitespace).reverse⟩

/-- One `key, value = line.split('=', 1); env[key.strip()] = value.strip()`
step; `none` models the `ValueError` on a line without `=`. -/
def parseEnvLine (line : String) : Option (String × String) :=
  match splitEq1 line.data with
  | some (k, v) => some (stripStr ⟨k⟩, stripStr ⟨v⟩)
  | none => none

/-- `int()` on the decimal digit strings the spawn form supplies. -/
def parseNat : String → Option Nat :=
  fun s => match s.data with
  | [] => none
  | l => go l 0
where
  go : List Char → Nat → Option Nat
    | [], acc => some acc
    | c :: cs, acc =>
      if c.isDigit then go cs (acc * 10 + (c.toNat - 48)) else none

/-- `MLHubDockerSpawner.options_from_form`. Note it reads the form field
`mount_volume` and stores it under the key `mount_volume`; it never writes
`is_mount_volume`. `none` models the `ValueError` raised on a malformed
`env` line. -/
def options_from_form (formdata : List (String × List String)) : Option UserOptions := do
  let envRaw := (formGet formdata "env").getD ""
  let envLines := (splitLines envRaw).filter fun l => !l.data.isEmpty
  let env ← envLines.mapM parseEnvLine
  return {
    image := formGet formdata "image"
    cpu_limit := (formGet formdata "cpu_limit").bind parseNat
    mem_limit := formGet formdata "mem_limit"
    mount_volume := formGet formdata "mount_volume"
    is_mount_volume := none
    env := env
    gpus := formGet formdata "gpus" }

/-- `MLHubDockerSpawner.get_env`: the container environment as an
association list in which the most recent write stands first, so
`List.lookup` is the dictionary lookup. `baseEnv` is `super().get_env()`. -/
def get_env (baseEnv : List (String × String)) (opts : UserOptions)
    (objectName : String) : List (String × String) :=
  let e := baseEnv
  let e := if opts.env.isEmpty then e else opts.env.foldl (fun acc kv => kv :: acc) e
  let e := match opts.gpus with
    | some g => if optTruthy (some g) then ("NVIDIA_VISIBLE_DEVICES", g) :: e else e
    | none => e
  let e := match opts.cpu_limit with
    | some v => ("OMP_NUM_THREADS", toString v) :: e
    | none => e
  ("SSH_JUMPHOST_TARGET", objectName) :: e

/-- Outcome of `created_network.connect(mlhub_container_id)`: success, or a
`docker.errors.APIError` carrying an HTTP status code. -/
inductive ConnectOutcome where
  | success
  | apiError (statusCode : Nat)
  deriving DecidableEq, Repr

/-- How far one `start` call got. `abortedAllocation` is the `return` in the
bare `except:` around `create_network`; `abortedConnect` is the `return` on a
non-403 `APIError` from the hub connect; `started` means control reached
`super().start()`. -/
inductive StartOutcome where
  | abortedAllocation
  | abortedConnect
  | started
  deriving DecidableEq, Repr

/-- The spawner state `start` assembles before (maybe) starting the
container: resolved image override, `extra_host_config` entries, volumes,
and the network name, plus how far the call got. -/
structure StartConfig where
  image : Option String
  nano_cpus : Option Nat
  mem_limit : Option String
  nvidiaRuntime : Bool
  volumes : List (String × String)
  network_name : Option String
  outcome : StartOutcome
  deriving DecidableEq, Repr

/-- `MLHubDockerSpawner.start`. `maxAvailableCpus` is
`multiprocessing.cpu_count()`, `objectName` is `self.object_name` (the
network name), `serverName` is `getattr(self, "name", "")`, `createOk` is the
daemon's verdict on the `networks.create` call and `connect` the outcome of
attaching the hub container. -/
def start (opts : UserOptions) (maxAvailableCpus : Nat)
    (objectName serverName : String) (networks : List NetworkRecord)
    (createOk : Bool) (connect : ConnectOutcome) : StartConfig :=
  let image := if optTruthy opts.image then opts.image else none
  let nano_cpus := match opts.cpu_limit with
    | some v => some (min v maxAvailableCpus * 1000000000)
    | none => none
  let memLimit := if optTruthy opts.mem_limit then opts.mem_limit else none
  let vols : List (String × String) :=
    if opts.is_mount_volume == some "on" then
      [("jupyterhub-user-{username}" ++ serverName, "/workspace")]
    else []
  let nvidia := optTruthy opts.gpus
  let base : StartConfig :=
    { image := image, nano_cpus := nano_cpus, mem_limit := memLimit,
      nvidiaRuntime := nvidia, volumes := vols, network_name := none,
      outcome := .abortedAllocation }
  match create_network objectName networks createOk with
  | .error _ => base
  | .ok _ =>
    match connect with
    | .apiError s =>
      if s ≠ 403 then { base with network_name := some objectName, outcome := .abortedConnect }
      else { base with network_name := some objectName, outcome := .started }
    | .success => { base with network_name := some objectName, outcome := .started }

/-! ## Properties of the scan loop -/

theorem cidrLt_iff (c d : Cidr) :
    cidrLt c d = true ↔ c.addr < d.addr ∨ (c.addr = d.addr ∧ c.prefixLen < d.prefixLen) := by
  simp [cidrLt]

theorem scanNetworks_fst (name : String) (nets : List NetworkRecord) :
    ∀ h : Cidr, (scanNetworks name nets h).1 = nets.find? (nameMatches name) := by
  induction nets with
  | nil => intro h; rfl
  | cons n rest ih =>
    intro h
    cases hn : nameMatches name n with
    | true => simp [scanNetworks, List.find?, hn]
    | false =>
      cases hs : n.subnet with
      | none => simp [scanNetworks, List.find?, hn, hs, ih]
      | some c =>
        cases hc : inRange c && cidrLt h c with
        | true => simp [scanNetworks, List.find?, hn, hs, hc, ih]
        | false => simp [scanNetworks, List.find?, hn, hs, hc, ih]

theorem scanNetworks_snd (name : String) (nets : List NetworkRecord) :
    ∀ h : Cidr, (∀ n ∈ nets, nameMatches name n = false) →
      (scanNetworks name nets h).2 = foldHighest h nets := by
  induction nets with
  | nil => intro h _; rfl
  | cons n rest ih =>
    intro h hnm
    have h1 : nameMatches name n = false := hnm n (by simp)
    have h2 : ∀ m ∈ rest, nameMatches name m = false := fun m hm => hnm m (by simp [hm])
    cases hs : n.subnet with
    | none => simp [scanNetworks, foldHighest, h1, hs, ih h h2]
    | some c =>
      cases hc : inRange c && cidrLt h c with
      | true => simp [scanNetworks, foldHighest, h1, hs, hc, ih c h2]
      | false => simp [scanNetworks, foldHighest, h1, hs, hc, ih h h2]

theorem foldHighest_inRange (nets : List NetworkRecord) :
    ∀ h : Cidr, inRange h = true → inRange (foldHighest h nets) = true := by
  induction nets with
  | nil => intro h hh; exact hh
  | cons n rest ih =>
    intro h hh
    cases hs : n.subnet with
    | none => simpa [foldHighest, hs] using ih h hh
    | some c =>
      cases hc : inRange c && cidrLt h c with
      | true =>
        have hcr : inRange c = true := (Bool.and_eq_true_iff.mp hc).1
        simpa [foldHighest, hs, hc] using ih c hcr
      | false => simpa [foldHighest, hs, hc] using ih h hh

theorem foldHighest_addr (nets : List NetworkRecord) :
    ∀ h : Cidr, (foldHighest h nets).addr = max h.addr (maxInRangeSubnetAddr nets) := by
  induction nets with
  | nil => intro h; simp [foldHighest, maxInRangeSubnetAddr]
  | cons n rest ih =>
    intro h
    cases hs : n.subnet with
    | none => simp [foldHighest, maxInRangeSubnetAddr, hs, ih]
    | some c =>
      cases hr : inRange c with
      | false => simp [foldHighest, maxInRangeSubnetAddr, hs, hr, ih]
      | true =>
        cases hlt : cidrLt h c with
        | true =>
          have hle : h.addr ≤ c.addr := by
            rcases (cidrLt_iff h c).mp hlt with hlt1 | ⟨heq, _⟩
            · exact Nat.le_of_lt hlt1
            · exact Nat.le_of_eq heq
          simp [foldHighest, maxInRangeSubnetAddr, hs, hr, hlt, ih]
          omega
        | false =>
          have hge : c.addr ≤ h.addr := by
            by_contra hcon
            have : cidrLt h c = true := (cidrLt_iff h c).mpr (Or.inl (by omega))
            simp [this] at hlt
          simp [foldHighest, maxInRangeSubnetAddr, hs, hr, hlt, ih]
          omega

theorem inRange_bounds (c : Cidr) (h : inRange c = true) :
    mkIp 172 33 0 0 ≤ c.addr ∧ c.addr < mkIp 173 0 0 0 := by
  simp [inRange, octet0, octet1, INITIAL_CIDR_FIRST_OCTET, INITIAL_CIDR_SECOND_OCTET] at h
  obtain ⟨h1, h2⟩ := h
  unfold mkIp
  omega

theorem le_maxInRangeSubnetAddr (nets : List NetworkRecord) :
    ∀ n ∈ nets, ∀ c : Cidr, n.subnet = some c → inRange c = true →
      c.addr ≤ maxInRangeSubnetAddr nets := by
  induction nets with
  | nil => intro n hn; cases hn
  | cons m rest ih =>
    intro n hn c hc hr
    rcases List.mem_cons.mp hn with heq | hmem
    · subst heq
      simp [maxInRangeSubnetAddr, hc, hr]
    · have hrec := ih n hmem c hc hr
      cases hs : m.subnet with
      | none => simpa [maxInRangeSubnetAddr, hs] using hrec
      | some d =>
        cases hrd : inRange d with
        | false => simpa [maxInRangeSubnetAddr, hs, hrd] using hrec
        | true =>
          simp [maxInRangeSubnetAddr, hs, hrd]
          omega

/-! ## Characterizations of `create_network` -/

theorem create_network_of_find (name : String) (nets : List NetworkRecord)
    (m : NetworkRecord) (hfind : nets.find? (nameMatches name) = some m) (createOk : Bool) :
    create_network name nets createOk = .ok (.reused m) := by
  cases hscan : scanNetworks name nets initialCidr with
  | mk f s =>
    have h1 : f = some m := by
      have h := scanNetworks_fst name nets initialCidr
      rw [hscan] at h
      simpa [hfind] using h
    subst h1
    simp [create_network, hscan]

theorem create_network_of_no_match (name : String) (nets : List NetworkRecord)
    (hnm : ∀ n ∈ nets, nameMatches name n = false) (createOk : Bool) :
    create_network name nets createOk =
      nextFromHighest (foldHighest initialCidr nets) createOk := by
  cases hscan : scanNetworks name nets initialCidr with
  | mk f s =>
    have hf : f = none := by
      have h := scanNetworks_fst name nets initialCidr
      rw [hscan] at h
      simp only at h
      rw [h]
      exact List.find?_eq_none.mpr fun n hn => by simp [hnm n hn]
    have hs : s = foldHighest initialCidr nets := by
      have h := scanNetworks_snd name nets initialCidr hnm
      rw [hscan] at h
      simpa using h
    subst hf
    subst hs
    simp [create_network, hscan]

theorem nextFromHighest_created_inv {highest : Cidr} {createOk : Bool} {sub : Cidr} {gw : Nat}
    (h : nextFromHighest highest createOk = .ok (.created sub gw)) :
    sub = ⟨highest.addr + 256, 24⟩ ∧ gw = highest.addr + 257 ∧
      (highest.addr + 256) % 256 = 0 ∧
      octet0 (highest.addr + 256) ≤ INITIAL_CIDR_FIRST_OCTET ∧ createOk = true := by
  have hmod : (highest.addr + 256) % 256 = highest.addr % 256 := Nat.add_mod_right _ _
  by_cases h1 : highest.addr % 256 = 0
  · by_cases h2 : INITIAL_CIDR_FIRST_OCTET < octet0 (highest.addr + 256)
    · simp [nextFromHighest, hmod, h1, h2] at h
    · cases createOk with
      | false => simp [nextFromHighest, hmod, h1, h2] at h
      | true =>
        have hred : nextFromHighest highest true =
            .ok (.created ⟨highest.addr + 256, 24⟩ (highest.addr + 256 + 1)) := by
          simp [nextFromHighest, hmod, h1, h2]
        rw [hred] at h
        injection h with h3
        injection h3 with h4 h5
        exact ⟨h4.symm, by omega, by omega, by omega, rfl⟩
  · simp [nextFromHighest, hmod, h1] at h

theorem create_network_created_inv {name : String} {nets : List NetworkRecord}
    {createOk : Bool} {sub : Cidr} {gw : Nat}
    (h : create_network name nets createOk = .ok (.created sub gw)) :
    sub = ⟨(foldHighest initialCidr nets).addr + 256, 24⟩ ∧
      gw = (foldHighest initialCidr nets).addr + 257 ∧
      octet0 ((foldHighest initialCidr nets).addr + 256) ≤ INITIAL_CIDR_FIRST_OCTET := by
  cases hfind : nets.find? (nameMatches name) with
  | some m =>
    rw [create_network_of_find name nets m hfind createOk] at h
    simp at h
  | none =>
    have hnm : ∀ n ∈ nets, nameMatches name n = false := by
      intro n hn
      have := List.find?_eq_none.mp hfind n hn
      simpa using this
    rw [create_network_of_no_match name nets hnm createOk] at h
    obtain ⟨hsub, hgw, _, hoct, _⟩ := nextFromHighest_created_inv h
    exact ⟨hsub, hgw, hoct⟩

theorem foldHighest_of_no_inRange (nets : List NetworkRecord) :
    ∀ h : Cidr, (∀ n ∈ nets, ∀ c : Cidr, n.subnet = some c → inRange c = false) →
      foldHighest h nets = h := by
  induction nets with
  | nil => intro h _; rfl
  | cons n rest ih =>
    intro h hno
    have hrest : ∀ m ∈ rest, ∀ c : Cidr, m.subnet = some c → inRange c = false :=
      fun m hm => hno m (List.mem_cons_of_mem n hm)
    cases hs : n.subnet with
    | none => simpa [foldHighest, hs] using ih h hrest
    | some c =>
      have hfalse : inRange c = false := hno n (by simp) c hs
      simpa [foldHighest, hs, hfalse] using ih h hrest

theorem maxInRangeSubnetAddr_le (B : Nat) : ∀ nets : List NetworkRecord,
    (∀ n ∈ nets, ∀ c : Cidr, n.subnet = some c → inRange c = true → c.addr ≤ B) →
      maxInRangeSubnetAddr nets ≤ B := by
  intro nets
  induction nets with
  | nil => intro _; simp [maxInRangeSubnetAddr]
  | cons n rest ih =>
    intro hb
    have hrest := ih fun m hm c hc hr => hb m (List.mem_cons_of_mem n hm) c hc hr
    cases hs : n.subnet with
    | none => simpa [maxInRangeSubnetAddr, hs] using hrest
    | some c =>
      cases hr : inRange c with
      | false => simpa [maxInRangeSubnetAddr, hs, hr] using hrest
      | true =>
        have hcb := hb n (by simp) c hs hr
        simp [maxInRangeSubnetAddr, hs, hr]
        omega

theorem start_nano_cpus (opts : UserOptions) (cpus : Nat)
    (objectName serverName : String) (nets : List NetworkRecord)
    (createOk : Bool) (connect : ConnectOutcome) (v : Nat)
    (hcpu : opts.cpu_limit = some v) :
    (start opts cpus objectName serverName nets createOk connect).nano_cpus =
      some (min v cpus * 1000000000) := by
  simp only [start, hcpu]
  cases hc : create_network objectName nets createOk with
  | error e => simp
  | ok r =>
    cases connect with
    | success => simp
    | apiError s => by_cases hs : s = 403 <;> simp [hs]

/-! ## The claims -/

/-- C1, counterexample: with no existing network at all — in particular none
inside the reserved range and none named `ws-1` — `create_network` does not
return a created network with subnet `172.33.0.0/24` and gateway
`172.33.0.1`: the scan seed `INITIAL_CIDR` itself counts as the highest CIDR
and the allocator hands out the block above it. -/
theorem C1_counterexample :
    create_network "ws-1" [] true ≠
      .ok (.created ⟨mkIp 172 33 0 0, 24⟩ (mkIp 172 33 0 1)) := by
  decide

/-- C1, amended: when the runtime reports no network with a complete in-range
subnet and no network named as requested, `create_network` creates and
returns a network with subnet `172.33.1.0/24` (the block one above the
reserved range's first block, which is skipped) and gateway `172.33.1.1`. -/
theorem C1_amended_empty_allocates_second_block
    (name : String) (nets : List NetworkRecord)
    (hnm : ∀ n ∈ nets, nameMatches name n = false)
    (hnr : ∀ n ∈ nets, ∀ c : Cidr, n.subnet = some c → inRange c = false) :
    create_network name nets true =
      .ok (.created ⟨mkIp 172 33 1 0, 24⟩ (mkIp 172 33 1 1)) := by
  rw [create_network_of_no_match name nets hnm true,
    foldHighest_of_no_inRange nets initialCidr hnr]
  decide

/-- C1, witness for the amended theorem: a runtime with one out-of-range
network (docker's own default pool) and no name collision. -/
theorem C1_amended_witness :
    create_network "ws-1" [⟨"bridge", some ⟨mkIp 172 17 0 0, 16⟩⟩] true =
      .ok (.created ⟨mkIp 172 33 1 0, 24⟩ (mkIp 172 33 1 1)) :=
  C1_amended_empty_allocates_second_block "ws-1"
    [⟨"bridge", some ⟨mkIp 172 17 0 0, 16⟩⟩] (by decide) (by decide)

/-- C2, code bug: the spawn form posts the checkbox under the field name
`is_mount_volume`, but `options_from_form` reads the form key `mount_volume`
and stores it under `mount_volume`, while `start` checks
`user_options.get('is_mount_volume') == 'on'`. Submitting the checked box
therefore produces user options indistinguishable from the default (no
`is_mount_volume` key), and `start` binds no volume; only a directly
injected `is_mount_volume = "on"` makes `start` bind the named volume to
`/workspace`. -/
theorem C2_mount_volume_key_mismatch :
    options_from_form [("is_mount_volume", ["on"])] = some {} ∧
    (start {} 4 "jupyter-admin" "srv" [] true .success).volumes = [] ∧
    (start { is_mount_volume := some "on" } 4 "jupyter-admin" "srv" [] true
        .success).volumes = [("jupyterhub-user-{username}srv", "/workspace")] :=
  ⟨by decide, by decide, by decide⟩

/-- C3: for a non-empty network list whose subnets are all complete and
inside the reserved range, none bearing the requested name, any subnet the
call allocates is the numerically highest existing in-range network address
plus 256, re-expressed as a `/24`, and is strictly greater (in the CIDR
order) than every existing subnet. -/
theorem C3_allocated_equals_max_plus_256
    (name : String) (nets : List NetworkRecord) (createOk : Bool)
    (sub : Cidr) (gw : Nat)
    (hne : nets ≠ [])
    (hnm : ∀ n ∈ nets, nameMatches name n = false)
    (hin : ∀ n ∈ nets, ∃ c : Cidr, n.subnet = some c ∧ inRange c = true)
    (h : create_network name nets createOk = .ok (.created sub gw)) :
    sub = ⟨maxInRangeSubnetAddr nets + 256, 24⟩ ∧
      ∀ n ∈ nets, ∀ c : Cidr, n.subnet = some c → cidrLt c sub = true := by
  obtain ⟨hsub, hgw, hoct⟩ := create_network_created_inv h
  have hfold : (foldHighest initialCidr nets).addr =
      max initialCidr.addr (maxInRangeSubnetAddr nets) := foldHighest_addr nets initialCidr
  obtain ⟨n0, hn0⟩ : ∃ n0, n0 ∈ nets := by
    cases nets with
    | nil => exact absurd rfl hne
    | cons a l => exact ⟨a, by simp⟩
  obtain ⟨c0, hc0, hr0⟩ := hin n0 hn0
  have hseed : initialCidr.addr ≤ c0.addr := (inRange_bounds c0 hr0).1
  have hc0M : c0.addr ≤ maxInRangeSubnetAddr nets :=
    le_maxInRangeSubnetAddr nets n0 hn0 c0 hc0 hr0
  have hM : (foldHighest initialCidr nets).addr = maxInRangeSubnetAddr nets := by
    rw [hfold]
    exact Nat.max_eq_right (le_trans hseed hc0M)
  constructor
  · rw [hsub, hM]
  · intro n hn c hc
    obtain ⟨c', hc', hr'⟩ := hin n hn
    rw [hc] at hc'
    injection hc' with hcc
    subst hcc
    have hcM : c.addr ≤ maxInRangeSubnetAddr nets :=
      le_maxInRangeSubnetAddr nets n hn c hc hr'
    apply (cidrLt_iff c sub).mpr
    left
    rw [hsub]
    show c.addr < (foldHighest initialCidr nets).addr + 256
    omega

/-- C3, witness: two in-range `/24` networks `172.33.0.0/24` and
`172.33.1.0/24`; allocating `ws-42` yields `172.33.2.0/24`, which is
`max + 256` and strictly above the highest existing one. -/
theorem C3_witness :
    (⟨mkIp 172 33 2 0, 24⟩ : Cidr) =
      ⟨maxInRangeSubnetAddr
          [⟨"net-a", some ⟨mkIp 172 33 0 0, 24⟩⟩,
           ⟨"net-b", some ⟨mkIp 172 33 1 0, 24⟩⟩] + 256, 24⟩ ∧
    cidrLt ⟨mkIp 172 33 1 0, 24⟩ ⟨mkIp 172 33 2 0, 24⟩ = true := by
  obtain ⟨h1, h2⟩ := C3_allocated_equals_max_plus_256 "ws-42"
    [⟨"net-a", some ⟨mkIp 172 33 0 0, 24⟩⟩, ⟨"net-b", some ⟨mkIp 172 33 1 0, 24⟩⟩]
    true ⟨mkIp 172 33 2 0, 24⟩ (mkIp 172 33 2 1)
    (by decide) (by decide) (by decide) (by decide)
  exact ⟨h1, h2 ⟨"net-b", some ⟨mkIp 172 33 1 0, 24⟩⟩ (by decide) _ rfl⟩

/-- C4: when the listed networks contain one whose lower-cased name equals
the lower-cased requested name, `create_network` returns that record as-is,
for either daemon verdict on a creation call — so no creation call is
consulted, and two calls over the same runtime state return the identical
record. -/
theorem C4_name_match_is_idempotent_reuse
    (name : String) (nets : List NetworkRecord) (m : NetworkRecord)
    (hfind : nets.find? (nameMatches name) = some m) :
    m ∈ nets ∧ nameMatches name m = true ∧
    (∀ createOk : Bool, create_network name nets createOk = .ok (.reused m)) ∧
    create_network name nets true = create_network name nets false := by
  refine ⟨List.mem_of_find?_eq_some hfind, List.find?_some hfind,
    fun createOk => create_network_of_find name nets m hfind createOk, ?_⟩
  rw [create_network_of_find name nets m hfind true,
    create_network_of_find name nets m hfind false]

/-- C4, witness: the match is case-insensitive (`WS-42` vs `ws-42`) and both
daemon verdicts give the same reused record. -/
theorem C4_witness :
    (⟨"WS-42", some ⟨mkIp 172 33 7 0, 24⟩⟩ : NetworkRecord) ∈
      [⟨"other", some ⟨mkIp 172 33 5 0, 24⟩⟩, ⟨"WS-42", some ⟨mkIp 172 33 7 0, 24⟩⟩] ∧
    nameMatches "ws-42" ⟨"WS-42", some ⟨mkIp 172 33 7 0, 24⟩⟩ = true ∧
    create_network "ws-42"
      [⟨"other", some ⟨mkIp 172 33 5 0, 24⟩⟩, ⟨"WS-42", some ⟨mkIp 172 33 7 0, 24⟩⟩] true =
      .ok (.reused ⟨"WS-42", some ⟨mkIp 172 33 7 0, 24⟩⟩) ∧
    create_network "ws-42"
      [⟨"other", some ⟨mkIp 172 33 5 0, 24⟩⟩, ⟨"WS-42", some ⟨mkIp 172 33 7 0, 24⟩⟩] true =
    create_network "ws-42"
      [⟨"other", some ⟨mkIp 172 33 5 0, 24⟩⟩, ⟨"WS-42", some ⟨mkIp 172 33 7 0, 24⟩⟩] false := by
  obtain ⟨h1, h2, h3, h4⟩ := C4_name_match_is_idempotent_reuse "ws-42"
    [⟨"other", some ⟨mkIp 172 33 5 0, 24⟩⟩, ⟨"WS-42", some ⟨mkIp 172 33 7 0, 24⟩⟩]
    ⟨"WS-42", some ⟨mkIp 172 33 7 0, 24⟩⟩ (by decide)
  exact ⟨h1, h2, h3 true, h4⟩

/-- C5: once the network is resolved, a hub-connect `APIError` with HTTP
status 403 lets the launch proceed to container start, while any other
status aborts it before the container is started. -/
theorem C5_hub_attach_tolerance
    (opts : UserOptions) (cpus : Nat) (objectName serverName : String)
    (nets : List NetworkRecord) (createOk : Bool) (r : AllocResult)
    (halloc : create_network objectName nets createOk = .ok r) :
    (start opts cpus objectName serverName nets createOk (.apiError 403)).outcome =
      .started ∧
    ∀ s : Nat, s ≠ 403 →
      (start opts cpus objectName serverName nets createOk (.apiError s)).outcome =
        .abortedConnect := by
  constructor
  · simp [start, halloc]
  · intro s hs
    simp [start, halloc, hs]

/-- C5, witness: status 403 proceeds, status 500 aborts before start. -/
theorem C5_witness :
    (start {} 4 "ws-1" "" [] true (.apiError 403)).outcome = .started ∧
    (start {} 4 "ws-1" "" [] true (.apiError 500)).outcome = .abortedConnect := by
  obtain ⟨h1, h2⟩ := C5_hub_attach_tolerance {} 4 "ws-1" "" [] true
    (.created ⟨mkIp 172 33 1 0, 24⟩ (mkIp 172 33 1 1)) (by decide)
  exact ⟨h1, h2 500 (by decide)⟩

/-- C6, counterexample: when the daemon rejects the creation call (the
duplicate-network race), `start` does not re-run the allocation — the bare
`except:` around `create_network` logs and returns, so the launch is aborted
as fatal with no retry and no container start. -/
theorem C6_counterexample :
    create_network "ws-1" [] false = .error .duplicateNetwork ∧
    (start {} 4 "ws-1" "" [] false .success).outcome = .abortedAllocation :=
  ⟨by decide, by decide⟩

/-- C6, amended: a duplicate-creation rejection is treated like every other
allocation failure: `start` aborts the launch (no container start, no second
allocation attempt) instead of retrying. -/
theorem C6_amended_duplicate_is_fatal
    (opts : UserOptions) (cpus : Nat) (objectName serverName : String)
    (nets : List NetworkRecord) (connect : ConnectOutcome)
    (hdup : create_network objectName nets false = .error .duplicateNetwork) :
    (start opts cpus objectName serverName nets false connect).outcome =
      .abortedAllocation := by
  simp [start, hdup]

/-- C6, witness for the amended theorem. -/
theorem C6_amended_witness :
    (start {} 8 "ws-7" "" [] false .success).outcome = .abortedAllocation :=
  C6_amended_duplicate_is_fatal {} 8 "ws-7" "" [] .success (by decide)

/-- C7, counterexample: the highest in-range subnet `172.255.0.0/24` has
second octet 255 — the last valid value for first octet 172 — yet
`create_network` does not fail with exhaustion: it issues a creation call
and returns `172.255.1.0/24`. -/
theorem C7_counterexample :
    create_network "ws-1" [⟨"existing", some ⟨mkIp 172 255 0 0, 24⟩⟩] true =
      .ok (.created ⟨mkIp 172 255 1 0, 24⟩ (mkIp 172 255 1 1)) ∧
    create_network "ws-1" [⟨"existing", some ⟨mkIp 172 255 0 0, 24⟩⟩] true ≠
      .error .exhausted :=
  ⟨by decide, by decide⟩

/-- C7, amended: exhaustion happens exactly at the end of the whole reserved
/8-style range: when some complete in-range subnet has network address
`172.255.255.0` (second AND third octets at their last value) and the
in-range subnets are 256-aligned, `create_network` fails with the
address-space-exhausted error for either daemon verdict — so no creation
call is consulted. -/
theorem C7_amended_exhaustion_at_top
    (name : String) (nets : List NetworkRecord)
    (hnm : ∀ n ∈ nets, nameMatches name n = false)
    (hal : ∀ n ∈ nets, ∀ c : Cidr, n.subnet = some c → inRange c = true →
      c.addr % 256 = 0)
    (htop : ∃ n ∈ nets, ∃ c : Cidr, n.subnet = some c ∧ c.addr = mkIp 172 255 255 0) :
    ∀ createOk : Bool, create_network name nets createOk = .error .exhausted := by
  intro createOk
  rw [create_network_of_no_match name nets hnm createOk]
  obtain ⟨n0, hn0, c0, hc0, haddr0⟩ := htop
  have hr0 : inRange c0 = true := by
    unfold inRange octet0 octet1 INITIAL_CIDR_FIRST_OCTET INITIAL_CIDR_SECOND_OCTET
    rw [haddr0]
    decide
  have hub : ∀ n ∈ nets, ∀ c : Cidr, n.subnet = some c → inRange c = true →
      c.addr ≤ mkIp 172 255 255 0 := by
    intro n hn c hc hr
    have hbounds := inRange_bounds c hr
    have hmod := hal n hn c hc hr
    unfold mkIp at hbounds ⊢
    omega
  have hMle : maxInRangeSubnetAddr nets ≤ mkIp 172 255 255 0 :=
    maxInRangeSubnetAddr_le (mkIp 172 255 255 0) nets hub
  have hMge : mkIp 172 255 255 0 ≤ maxInRangeSubnetAddr nets := by
    rw [← haddr0]
    exact le_maxInRangeSubnetAddr nets n0 hn0 c0 hc0 hr0
  have hM : maxInRangeSubnetAddr nets = mkIp 172 255 255 0 := Nat.le_antisymm hMle hMge
  have hfold : (foldHighest initialCidr nets).addr = mkIp 172 255 255 0 := by
    rw [foldHighest_addr nets initialCidr, hM]
    have hle : initialCidr.addr ≤ mkIp 172 255 255 0 := by decide
    exact Nat.max_eq_right hle
  have h1 : (mkIp 172 255 255 0 + 256) % 256 = 0 := by decide
  have h2 : INITIAL_CIDR_FIRST_OCTET < octet0 (mkIp 172 255 255 0 + 256) := by decide
  simp [nextFromHighest, hfold, h1, h2]

/-- C7, witness for the amended theorem: both daemon verdicts give the
exhaustion error, hence no creation call. -/
theorem C7_amended_witness :
    create_network "ws-9" [⟨"full", some ⟨mkIp 172 255 255 0, 24⟩⟩] true =
      .error .exhausted ∧
    create_network "ws-9" [⟨"full", some ⟨mkIp 172 255 255 0, 24⟩⟩] false =
      .error .exhausted := by
  have h := C7_amended_exhaustion_at_top "ws-9"
    [⟨"full", some ⟨mkIp 172 255 255 0, 24⟩⟩] (by decide) (by decide)
    ⟨⟨"full", some ⟨mkIp 172 255 255 0, 24⟩⟩, by decide, ⟨mkIp 172 255 255 0, 24⟩,
      rfl, rfl⟩
  exact ⟨h true, h false⟩

/-- C8: every subnet `create_network` ever hands to a creation call — over
any name, any runtime state and any daemon verdict — has first octet 172 and
second octet at least 33. -/
theorem C8_allocated_subnet_in_reserved_range
    (name : String) (nets : List NetworkRecord) (createOk : Bool)
    (sub : Cidr) (gw : Nat)
    (h : create_network name nets createOk = .ok (.created sub gw)) :
    octet0 sub.addr = INITIAL_CIDR_FIRST_OCTET ∧
      INITIAL_CIDR_SECOND_OCTET ≤ octet1 sub.addr := by
  obtain ⟨hsub, hgw, hoct⟩ := create_network_created_inv h
  have hin : inRange (foldHighest initialCidr nets) = true :=
    foldHighest_inRange nets initialCidr (by decide)
  have hb := inRange_bounds _ hin
  subst hsub
  unfold mkIp at hb
  constructor
  · show octet0 ((foldHighest initialCidr nets).addr + 256) = INITIAL_CIDR_FIRST_OCTET
    unfold octet0 at hoct ⊢
    unfold INITIAL_CIDR_FIRST_OCTET at hoct ⊢
    omega
  · show INITIAL_CIDR_SECOND_OCTET ≤ octet1 ((foldHighest initialCidr nets).addr + 256)
    unfold octet0 INITIAL_CIDR_FIRST_OCTET at hoct
    unfold octet1 INITIAL_CIDR_SECOND_OCTET
    omega

/-- C8, witness: the first allocation over an empty runtime yields
`172.33.1.0/24`, whose octets satisfy the invariant. -/
theorem C8_witness :
    octet0 (Cidr.mk (mkIp 172 33 1 0) 24).addr = INITIAL_CIDR_FIRST_OCTET ∧
      INITIAL_CIDR_SECOND_OCTET ≤ octet1 (Cidr.mk (mkIp 172 33 1 0) 24).addr :=
  C8_allocated_subnet_in_reserved_range "ws-1" [] true
    ⟨mkIp 172 33 1 0, 24⟩ (mkIp 172 33 1 1) (by decide)

/-- C9: with `cpu_limit` set to an integer above the host core count the
CPU quota handed to the runtime is `hostCores × 1e9`, and with `cpu_limit`
at most the host core count it is the requested value `× 1e9`, exactly. -/
theorem C9_cpu_quota_clamped_to_host
    (opts : UserOptions) (cpus : Nat) (objectName serverName : String)
    (nets : List NetworkRecord) (createOk : Bool) (connect : ConnectOutcome)
    (v : Nat) (hcpu : opts.cpu_limit = some v) :
    (cpus < v →
      (start opts cpus objectName serverName nets createOk connect).nano_cpus =
        some (cpus * 1000000000)) ∧
    (v ≤ cpus →
      (start opts cpus objectName serverName nets createOk connect).nano_cpus =
        some (v * 1000000000)) := by
  have hn := start_nano_cpus opts cpus objectName serverName nets createOk connect v hcpu
  constructor
  · intro hlt
    rw [hn]
    have hmin : min v cpus = cpus := by omega
    rw [hmin]
  · intro hle
    rw [hn]
    have hmin : min v cpus = v := by omega
    rw [hmin]

/-- C9, witness: requesting 16 cores on a 4-core host yields a quota of
`4e9`; requesting 3 cores yields `3e9`. -/
theorem C9_witness :
    (start { cpu_limit := some 16 } 4 "ws-1" "" [] true .success).nano_cpus =
      some (4 * 1000000000) ∧
    (start { cpu_limit := some 3 } 4 "ws-1" "" [] true .success).nano_cpus =
      some (3 * 1000000000) :=
  ⟨(C9_cpu_quota_clamped_to_host { cpu_limit := some 16 } 4 "ws-1" "" [] true
      .success 16 rfl).1 (by decide),
   (C9_cpu_quota_clamped_to_host { cpu_limit := some 3 } 4 "ws-1" "" [] true
      .success 3 rfl).2 (by decide)⟩

/-- C10: whenever `cpu_limit` is set, the `OMP_NUM_THREADS` entry of the
container environment is the raw user-supplied value — `get_env` never sees
the host core count — even while the CPU quota built by `start` is clamped
to the host core count. -/
theorem C10_omp_hint_keeps_raw_value
    (baseEnv : List (String × String)) (opts : UserOptions) (cpus : Nat)
    (objectName serverName : String) (nets : List NetworkRecord)
    (createOk : Bool) (connect : ConnectOutcome)
    (v : Nat) (hcpu : opts.cpu_limit = some v) :
    List.lookup "OMP_NUM_THREADS" (get_env baseEnv opts objectName) =
      some (toString v) ∧
    (cpus < v →
      (start opts cpus objectName serverName nets createOk connect).nano_cpus =
        some (cpus * 1000000000)) := by
  constructor
  · have hne : (("OMP_NUM_THREADS" : String) == "SSH_JUMPHOST_TARGET") = false := by decide
    simp [get_env, hcpu, List.lookup, hne]
  · intro hlt
    rw [start_nano_cpus opts cpus objectName serverName nets createOk connect v hcpu]
    have hmin : min v cpus = cpus := by omega
    rw [hmin]

/-- C10, witness: a request of 16 cores on a 4-core host keeps
`OMP_NUM_THREADS = "16"` while the quota is clamped to `4e9`. -/
theorem C10_witness :
    List.lookup "OMP_NUM_THREADS"
      (get_env [("PATH", "/usr/bin")] { cpu_limit := some 16 } "ws-1") =
      some (toString 16) ∧
    (start { cpu_limit := some 16 } 4 "ws-1" "" [] true .success).nano_cpus =
      some (4 * 1000000000) := by
  obtain ⟨h1, h2⟩ := C10_omp_hint_keeps_raw_value [("PATH", "/usr/bin")]
    { cpu_limit := some 16 } 4 "ws-1" "" [] true .success 16 rfl
  exact ⟨h1, h2 (by decide)⟩
